import Mathlib

/-
Verification development for the metadata-extraction pipeline in
`scripts/scrapeandwrite.py`.  The Python source is shallowly embedded:
pure helpers become Lean functions on `List Char` / `String`, the mutable
global id counter and the registry map become explicitly threaded state,
network traffic is an oracle parameter describing the responses the
program observes, and Python exceptions become `Except String`.
-/

namespace Scrape

/-! ### Python string primitives

Structural models of the string operations the script uses
(`in`, `startswith`, `split`, `strip`, `lower`), written on `List Char`
so that every concrete evaluation reduces in the kernel. -/

/-- Does `p` occur as a prefix of `l`?  Models Python `str.startswith`. -/
def startsWithL (p : List Char) : List Char → Bool
  | [] => p.isEmpty
  | c :: cs =>
    match p with
    | [] => true
    | q :: qs => q == c && startsWithL qs cs

/-- Does `pat` occur as a contiguous substring of `l`?  Models Python `in`. -/
def containsL (pat : List Char) : List Char → Bool
  | [] => pat.isEmpty
  | c :: cs => startsWithL pat (c :: cs) || containsL pat cs

/-- Python `needle in hay` for strings. -/
def strContains (hay needle : String) : Bool := containsL needle.data hay.data

/-- Python `hay.startswith needle` for strings. -/
def strStarts (hay needle : String) : Bool := startsWithL needle.data hay.data

/-- Split on a separator character; models Python `str.split(sep)` for a
one-character separator (always returns at least one group). -/
def splitCharL (sep : Char) : List Char → List (List Char)
  | [] => [[]]
  | c :: cs =>
    match splitCharL sep cs with
    | [] => [[]]
    | g :: gs => if c == sep then [] :: g :: gs else (c :: g) :: gs

/-- Drop leading and trailing characters satisfying `p`. -/
def stripWhileL (p : Char → Bool) (l : List Char) : List Char :=
  ((l.dropWhile p).reverse.dropWhile p).reverse

/-- Python `str.strip()` (default whitespace). -/
def pyStrip (s : String) : String :=
  String.mk (stripWhileL Char.isWhitespace s.data)

/-- Python `str.strip(chars)` for an explicit character set. -/
def pyStripChars (s : String) (cs : List Char) : String :=
  String.mk (stripWhileL (fun c => cs.contains c) s.data)

/-- Python `str.lower()` (ASCII case folding, which is all the script needs). -/
def pyLowerStr (s : String) : String := String.mk (s.data.map Char.toLower)

/-- Python `str.split(sep)` for strings, one-character separator. -/
def pySplitOn (s : String) (sep : Char) : List String :=
  (splitCharL sep s.data).map String.mk

/-- The characters of `l` strictly after the first occurrence of `pat`
(empty if `pat` does not occur). -/
def afterSubL (pat : List Char) : List Char → List Char
  | [] => []
  | c :: cs =>
    if startsWithL pat (c :: cs) then (c :: cs).drop pat.length
    else afterSubL pat cs

/-- The maximal leading run of decimal digits. -/
def takeDigitsL : List Char → List Char
  | [] => []
  | c :: cs => if c.isDigit then c :: takeDigitsL cs else []

/-! ### `urllib.parse.urlparse(url).path` and `os.path.splitext`

`urlPath` models the `.path` component of `urlparse` for the two URL
shapes the script feeds it: absolute URLs with an explicit `//`-authority
and scheme-less references.  Query (`?...`) and fragment (`#...`) parts
are removed, and for authority-carrying URLs the path starts at the first
`/` after the authority. -/

def urlPath (url : String) : String :=
  let l := (url.data.takeWhile (fun c => c != '#')).takeWhile (fun c => c != '?')
  if containsL "://".data l then
    String.mk ((afterSubL "://".data l).dropWhile (fun c => c != '/'))
  else
    String.mk l

/-- The basename of a `/`-separated path (characters after the last `/`). -/
def baseNameL (l : List Char) : List Char :=
  (l.reverse.takeWhile (fun c => c != '/')).reverse

/-- The extension (with dot) of a basename, per `os.path.splitext`:
the suffix from the last `.`, except that a basename whose characters
before the last dot are all dots (e.g. `.bashrc`, `..`) has no extension. -/
def extOfBase (base : List Char) : List Char :=
  let afterDot := base.reverse.takeWhile (fun c => c != '.')
  if afterDot.length == base.length then []
  else
    let before := base.take (base.length - afterDot.length - 1)
    if before.any (fun c => c != '.') then '.' :: afterDot.reverse else []

/-- `os.path.splitext(urlparse(url).path)[1].lower()` — the lowercased
URL-path extension used by the thumbnail downloader (source line 124). -/
def pyExtOf (url : String) : String :=
  pyLowerStr (String.mk (extOfBase (baseNameL (urlPath url).data)))

/-- First match of the regex `/models/(\d+)` in `url`: the maximal digit
run following the leftmost occurrence of `/models/` that is followed by
at least one digit (source lines 722 and 789). -/
def extractModelId : List Char → Option String
  | [] => none
  | c :: cs =>
    if startsWithL "/models/".data (c :: cs) then
      let ds := takeDigitsL ((c :: cs).drop 8)
      if ds.isEmpty then extractModelId cs else some (String.mk ds)
    else extractModelId cs

/-! ### Numbers

JSON numbers are modelled as exact unnormalized fractions (Python stores
them as ints or doubles; every arithmetic step the script performs on
them — division by powers of 1024, comparison, `round(x, 2)`,
truncation — is exact on the values involved, so an exact fraction is a
faithful carrier).  Denominators are positive by construction. -/

structure Frac where
  num : Int
  den : Int
deriving DecidableEq

/-- Embed an integer. -/
def Frac.ofInt (n : Int) : Frac := ⟨n, 1⟩

/-- `a ≥ n` for a fraction with positive denominator vs an integer. -/
def Frac.geInt (a : Frac) (n : Int) : Bool := decide (a.num ≥ n * a.den)

/-- Exact division by 1024 (Python `x / 1024`, exact on the doubles involved). -/
def Frac.div1024 (a : Frac) : Frac := ⟨a.num, a.den * 1024⟩

/-- Python `int(x)`: truncation toward zero. -/
def Frac.trunc (a : Frac) : Int :=
  if a.num ≥ 0 then a.num.ediv a.den else -((-a.num).ediv a.den)

/-- `round(x, 2)` scaled by 100: the integer of hundredths nearest to `x`,
ties to even — Python's float `round` on the exactly representable values
the size formula produces. -/
def Frac.hundredths (a : Frac) : Int :=
  let n := a.num * 100
  let q := n.ediv a.den
  let r := n.emod a.den
  if 2 * r < a.den then q
  else if 2 * r > a.den then q + 1
  else if q.emod 2 = 0 then q else q + 1

/-- Python's `str`/f-string rendering of the float `round(x, 2)`, given its
value in hundredths `h ≥ 0`: integer part, a dot, then the fractional
digits with a trailing zero dropped but at least one digit kept
(`2.0`, `2.5`, `2.05`, `2.46`). -/
def floatRepr2 (h : Int) : String :=
  let i := h.ediv 100
  let r := h.emod 100
  if r = 0 then toString i ++ ".0"
  else if r.emod 10 = 0 then toString i ++ "." ++ toString (r.ediv 10)
  else if r < 10 then toString i ++ ".0" ++ toString r
  else toString i ++ "." ++ toString r

/-- File-size normalization of `scrapeandwrite.py` (lines 776-781, and the
identical formula at lines 621-631):

    size = (f"{round(size_kb/1024/1024,2)} GB" if size_kb >= 1024*1024
            else f"{round(size_kb/1024,2)} MB" if size_kb >= 1024
            else f"{int(size_kb)} KB" if size_kb else "")
-/
def sizeOfKB (size_kb : Frac) : String :=
  if size_kb.geInt (1024 * 1024) then
    floatRepr2 (size_kb.div1024.div1024.hundredths) ++ " GB"
  else if size_kb.geInt 1024 then
    floatRepr2 (size_kb.div1024.hundredths) ++ " MB"
  else if size_kb.num ≠ 0 then
    toString size_kb.trunc ++ " KB"
  else ""

/-! ### JSON values and Python-level operations on them -/

/-- JSON values as Python sees them after `r.json()`. -/
inductive JVal where
  | null : JVal
  | boolean : Bool → JVal
  | num : Frac → JVal
  | str : String → JVal
  | arr : List JVal → JVal
  | obj : List (String × JVal) → JVal

/-- Python truthiness of a JSON value. -/
def JVal.truthy : JVal → Bool
  | .null => false
  | .boolean b => b
  | .num q => decide (q.num ≠ 0)
  | .str s => decide (s ≠ "")
  | .arr l => !l.isEmpty
  | .obj f => !f.isEmpty

/-- First binding of key `k` (the script's upstream JSON has unique keys). -/
def jlookup (k : String) : List (String × JVal) → Option JVal
  | [] => none
  | (k', v) :: t => if k' = k then some v else jlookup k t

/-- `d.get(k, default)` on a value already known to be an object. -/
def jvD (kvs : List (String × JVal)) (k : String) (d : JVal) : JVal :=
  (jlookup k kvs).getD d

/-- `v.get(k, default)` where `v` may not be a dict: non-dicts raise
`AttributeError`. -/
def jget (v : JVal) (k : String) (d : JVal) : Except String JVal :=
  match v with
  | .obj kvs => .ok (jvD kvs k d)
  | _ => .error "AttributeError: get on a non-dict"

/-- Python `a or b`. -/
def pyOr (a b : JVal) : JVal := if a.truthy then a else b

/-- Python `x[0]`: list indexing, string indexing (first character), and
the failures of everything else (`IndexError`, `KeyError`, `TypeError`). -/
def pyIndex0 : JVal → Except String JVal
  | .arr (x :: _) => .ok x
  | .arr [] => .error "IndexError"
  | .str s =>
    match s.data with
    | c :: _ => .ok (.str (String.mk [c]))
    | [] => .error "IndexError"
  | .obj _ => .error "KeyError: 0"
  | _ => .error "TypeError: not subscriptable"

mutual

/-- Python `repr` of a JSON value (string escaping and quote choice are
approximated; no theorem in this file depends on the `arr`/`obj` cases). -/
def pyRepr : JVal → String
  | .null => "None"
  | .boolean true => "True"
  | .boolean false => "False"
  | .num q => if q.den = 1 then toString q.num else floatRepr2 q.hundredths
  | .str s => "'" ++ s ++ "'"
  | .arr l => "[" ++ pyReprList l ++ "]"
  | .obj kvs => "\x7b" ++ pyReprObj kvs ++ "\x7d"

def pyReprList : List JVal → String
  | [] => ""
  | [v] => pyRepr v
  | v :: vs => pyRepr v ++ ", " ++ pyReprList vs

def pyReprObj : List (String × JVal) → String
  | [] => ""
  | [(k, v)] => "'" ++ k ++ "': " ++ pyRepr v
  | (k, v) :: kvs => "'" ++ k ++ "': " ++ pyRepr v ++ ", " ++ pyReprObj kvs

end

/-- Python `str`/f-string conversion of a JSON value. -/
def pyStrOf : JVal → String
  | .str s => s
  | v => pyRepr v

/-- The elements of a list when they are all strings. -/
def allStrs : List JVal → Option (List String)
  | [] => some []
  | .str s :: t =>
    match allStrs t with
    | some ss => some (s :: ss)
    | none => none
  | _ :: _ => none

/-- `", ".join(x)`: joins a list of strings, the characters of a string, or
the keys of a dict; anything else (and non-string elements) raises. -/
def pyJoinComma : JVal → Except String String
  | .arr l =>
    match allStrs l with
    | some ss => .ok (String.intercalate ", " ss)
    | none => .error "TypeError: join of non-str"
  | .str s => .ok (String.intercalate ", " (s.data.map fun c => String.mk [c]))
  | .obj kvs => .ok (String.intercalate ", " (kvs.map Prod.fst))
  | _ => .error "TypeError: join"

/-- The size expression of lines 776-781 applied to the raw `sizeKB` JSON
value: numbers go through `sizeOfKB`, Python bools are ints
(`True ≥ 1024` is false, `True` is truthy, `int(True) = 1`), everything
else fails at the first `>=` comparison with `TypeError`. -/
def pySizeOf : JVal → Except String String
  | .num q => .ok (sizeOfKB q)
  | .boolean true => .ok "1 KB"
  | .boolean false => .ok ""
  | _ => .error "TypeError: size comparison"

/-- `x.split("T")[0]` on the `createdAt` field: strings only. -/
def pySplitT : JVal → Except String String
  | .str s => .ok (String.mk (s.data.takeWhile (fun c => c != 'T')))
  | _ => .error "AttributeError: split"

/-- `x.lower()`: strings only. -/
def pyLower : JVal → Except String String
  | .str s => .ok (pyLowerStr s)
  | _ => .error "AttributeError: lower"

/-! ### HTTP fetch layer: `get` (source lines 55-79)

The network is an oracle assigning each attempt its outcome.  Sleeps
(`rand_sleep`, the 30 s cooldown on 429) do not affect the returned
value and are not modelled. -/

/-- Outcome of one `requests.get` attempt inside `get`. -/
inductive Attempt where
  | ok : Attempt
  | status : Nat → Attempt
  | timeout : Attempt
  | netError : String → Attempt
deriving DecidableEq

/-- What `get` delivers: the index of the successful attempt, or the
exception it raises. -/
inductive GetErr where
  | exc : String → GetErr
  | runtimeError : String → GetErr
  | timeoutErr : GetErr
  | httpErr : Nat → GetErr
deriving DecidableEq

/-- `RETRIES` (source line 35). -/
def RETRIES : Nat := 3

/-- The retry loop of `get`: attempt `i`, retrying while attempts remain.
A 200 response returns immediately; a non-200 status or a
`requests.Timeout` is logged and retried without being recorded; any
other exception is recorded in `last_exc` and retried.  After the loop,
`last_exc` is raised if set, else a generic `RuntimeError`. -/
def getLoop (outcomes : Nat → Attempt) : Nat → Nat → Option String → Except GetErr Nat
  | _, 0, lastExc =>
    match lastExc with
    | some m => .error (.exc m)
    | none => .error (.runtimeError "Failed to GET")
  | i, rem + 1, lastExc =>
    match outcomes i with
    | .ok => .ok i
    | .status _ => getLoop outcomes (i + 1) rem lastExc
    | .timeout => getLoop outcomes (i + 1) rem lastExc
    | .netError m => getLoop outcomes (i + 1) rem (some m)

/-- `get(url)` (source lines 55-79), as a function of the attempt oracle. -/
def get (outcomes : Nat → Attempt) : Except GetErr Nat :=
  getLoop outcomes 0 RETRIES none

/-- The error corresponding to a single failed attempt — what a caller
reading the spec would expect `get` to raise for that attempt. -/
def attemptErr : Attempt → GetErr
  | .ok => .runtimeError "not an error"
  | .status c => .httpErr c
  | .timeout => .timeoutErr
  | .netError m => .exc m

/-- The `last_exc` value after running the first `n` attempts: the most
recent network-level exception, if any. -/
def lastNetError (outcomes : Nat → Attempt) : Nat → Option String
  | 0 => none
  | n + 1 =>
    match outcomes n with
    | .netError m => some m
    | _ => lastNetError outcomes n

/-! ### Thumbnail acquisition: `download_thumbnail` (source lines 113-156) -/

/-- `THUMB_DIR` (source line 27). -/
def THUMB_DIR : String := "E:\\GitHubRepos\\golden-key\\scraped_data\\thumbnails"

/-- Observable side effects of the downloader. -/
inductive Effect where
  | ensureDir : String → Effect
  | httpGet : String → Effect
  | writeFile : String → Effect
deriving DecidableEq

/-- What the single `requests.get` inside `download_thumbnail` does:
raises, or returns a response with a status code and a Content-Type
header value. -/
inductive DlResp where
  | raises : DlResp
  | resp : Nat → String → DlResp

/-- The extension choice of lines 133-142, given the lowercased URL-path
extension and the raw Content-Type header:

    content_type = r.headers.get("Content-Type", "").lower()
    if "image" in content_type:
        if not ext or ext not in [".jpg", ".jpeg", ".png", ".webp"]: ext = ".jpg"
    elif "video" in content_type:
        if not ext or ext not in [".mp4", ".webm"]: ext = ".mp4"
    elif not ext:
        ext = ".dat"
-/
def chooseExt (ext contentType : String) : String :=
  let ct := pyLowerStr contentType
  if strContains ct "image" then
    if ext = "" ∨ ¬ [".jpg", ".jpeg", ".png", ".webp"].contains ext then ".jpg" else ext
  else if strContains ct "video" then
    if ext = "" ∨ ¬ [".mp4", ".webm"].contains ext then ".mp4" else ext
  else if ext = "" then ".dat" else ext

/-- The extension-choice rule in the words of the spec (§4.5): URL path
extension if it is one of the known image set; otherwise sniffed from the
content-type (image → `.jpg`, video → `.mp4`); otherwise a generic
fallback.  Stated only to be compared with `chooseExt`. -/
def specChooseExt (ext contentType : String) : String :=
  let ct := pyLowerStr contentType
  if [".jpg", ".jpeg", ".png", ".webp"].contains ext then ext
  else if strContains ct "image" then ".jpg"
  else if strContains ct "video" then ".mp4"
  else ".dat"

/-- `download_thumbnail(thumbnail_url, out_id)` (lines 113-156) for a
string URL, with its effect trace.  An empty URL returns immediately;
otherwise the directory is ensured, the request issued, and on a 200
response the body is streamed to `THUMB_DIR\<out_id><ext>`.  Raised
request exceptions and non-200 statuses yield an empty local path. -/
def download_thumbnail (r : DlResp) (thumbnail_url out_id : String) :
    (String × String) × List Effect :=
  if thumbnail_url = "" then (("", ""), [])
  else
    let ext := pyExtOf thumbnail_url
    match r with
    | .raises =>
      ((thumbnail_url, ""), [.ensureDir THUMB_DIR, .httpGet thumbnail_url])
    | .resp status ct =>
      if status ≠ 200 then
        ((thumbnail_url, ""), [.ensureDir THUMB_DIR, .httpGet thumbnail_url])
      else
        let localPath := THUMB_DIR ++ "\\" ++ out_id ++ chooseExt ext ct
        ((thumbnail_url, localPath),
         [.ensureDir THUMB_DIR, .httpGet thumbnail_url, .writeFile localPath])

/-! ### The per-record thumbnail loop of `fetch_from_api` (lines 796-815)

    images = v.get("images") or []
    thumbs_remote, thumbs_local = [], []
    for j, img in enumerate(images[:5], 1):
        thumb_url = img.get("url")
        if not thumb_url: continue
        thumb_id = f"<out_id>_T<j>"
        try:
            remote, local = download_thumbnail(thumb_url, thumb_id, ...)
            if remote: thumbs_remote.append(remote)
            if local: thumbs_local.append(local)
        except Exception: pass

`img.get` on a non-dict element raises outside the `try` and aborts the
record; a truthy non-string `thumb_url` makes `urlparse` raise inside
`download_thumbnail` before its own `try` (after `ensure_dir`), which the
`except` above catches, skipping the image. -/

/-- One pass of the loop body over the (at most five) selected images,
`j` counting from 1. -/
def thumbLoop (dl : Nat → DlResp) (out_id : String) :
    Nat → List JVal → List String × List String → List Effect →
    Except String (List String × List String) × List Effect
  | _, [], acc, effs => (.ok acc, effs)
  | j, img :: rest, (rs, ls), effs =>
    match img with
    | .obj ikvs =>
      let u := jvD ikvs "url" .null
      if u.truthy then
        match u with
        | .str us =>
          let r := download_thumbnail (dl j) us (out_id ++ "_T" ++ toString j)
          thumbLoop dl out_id (j + 1) rest
            (rs ++ (if r.1.1 ≠ "" then [r.1.1] else []),
             ls ++ (if r.1.2 ≠ "" then [r.1.2] else []))
            (effs ++ r.2)
        | _ =>
          -- urlparse raises on the non-string URL; ensure_dir already ran
          thumbLoop dl out_id (j + 1) rest (rs, ls) (effs ++ [.ensureDir THUMB_DIR])
      else thumbLoop dl out_id (j + 1) rest (rs, ls) effs
    | _ => (.error "AttributeError: img.get", effs)

/-- The whole thumbnail phase: `(v.get("images") or [])[:5]` then the loop.
By this point non-`arr`, non-`str` truthy `images` values have already
raised at line 769 (`img_info`), so only arrays, strings and falsy values
reach the slice. -/
def processThumbs (dl : Nat → DlResp) (out_id : String) (imagesJ : JVal) :
    Except String (List String × List String) × List Effect :=
  match pyOr imagesJ (.arr []) with
  | .arr l => thumbLoop dl out_id 1 (l.take 5) ([], []) []
  | .str s => thumbLoop dl out_id 1 ((s.data.take 5).map fun c => .str (String.mk [c])) ([], []) []
  | _ => (.error "TypeError: unsliceable", [])

/-! ### Link loader: `load_links` (source lines 164-206) -/

/-- A JSON value in the links file: a string, a list (elements shown after
Python's per-element `str(v)`, which preserves count and truthiness of
the list), or anything else, of which only truthiness matters because its
`urls` list is always empty. -/
inductive LVal where
  | s : String → LVal
  | lst : List String → LVal
  | other : Bool → LVal

/-- Python truthiness of a links-file value. -/
def LVal.truthy : LVal → Bool
  | .s v => decide (v ≠ "")
  | .lst vs => !vs.isEmpty
  | .other t => t

/-- The `urls` list built for one value (lines 186-191): comma-split and
strip for strings, per-element strip for lists, empty otherwise. -/
def linkParts : LVal → List String
  | .s v => ((pySplitOn v ',').map pyStrip).filter (fun u => u ≠ "")
  | .lst vs => (vs.map pyStrip).filter (fun u => u ≠ "")
  | .other _ => []

/-- Line 193: the whole value is dropped when every url starts with `#`
or lacks the substring `http`. -/
def allDropped (urls : List String) : Bool :=
  urls.all fun u => strStarts u "#" || !strContains u "http"

/-- Filename derived for a blank key (lines 198-199):
`urlparse(url).path.strip("/").split("/")[-1] or "unnamed"`. -/
def derivedFilename (url : String) : String :=
  let lastSeg := (pySplitOn (pyStripChars (urlPath url) ['/']) '/').getLastD ""
  if lastSeg = "" then "unnamed" else lastSeg

/-- The entries emitted for one key/value pair (lines 181-204). -/
def processLink (kv : String × LVal) : List (String × String) :=
  let name := pyStrip kv.1
  if ¬ kv.2.truthy then []
  else
    let urls := linkParts kv.2
    if urls.isEmpty || allDropped urls then []
    else if name = "" then urls.map fun u => (derivedFilename u, u)
    else urls.map fun u => (name, u)

/-- `load_links` on an already-parsed JSON mapping (insertion order). -/
def load_links (data : List (String × LVal)) : List (String × String) :=
  data.flatMap processLink

/-- The output length predicted by the spec's reading of the loader: every
value containing a URL scheme marker contributes one entry per non-empty
URL value; marker-less values contribute nothing.  Stated only to be
compared with `load_links`. -/
def specLinkCount (data : List (String × LVal)) : Nat :=
  (data.map fun kv =>
    if (linkParts kv.2).any (fun u => strContains u "http") then (linkParts kv.2).length
    else 0).sum

/-! ### The model record (the value stored in the registry) -/

/-- The `metadata` substructure of the returned dict (lines 831-837).
Fields the source reads with `.get` and stores untouched keep type `JVal`
(upstream could supply any JSON there); fields the source pipes through a
string operation are `String`. -/
structure RecMetadata where
  trained_words : String
  hashes : JVal
  description : JVal
  download_link : JVal
  published_on : String

/-- The record returned by `fetch_from_api` (lines 819-838). -/
structure ModelRecord where
  filename : String
  title : String
  type : String
  base_model : JVal
  base_model_type : JVal
  size : String
  thumbnail : String
  thumbnail_local : String
  thumbnails_all : List String
  thumbnails_local : List String
  model_link : String
  metadata : RecMetadata

/-! ### Field extraction from the version JSON (lines 766-790) -/

/-- The values computed before the id counter is touched (everything on
lines 766-790; any exception in this region leaves the counter alone). -/
structure PreFields where
  title : String
  model_type : JVal
  base_model : JVal
  base_model_type : JVal
  trained_words : String
  size : String
  hashes : JVal
  download_link : JVal
  description : JVal
  created : String
  model_link : String
  images : JVal

/-- Line 789: `model_info.get("id") or re.search(r"/models/(\d+)", url).group(1)` —
a truthy upstream id wins (rendered by the f-string of line 790), else
the numeric id is re-extracted from the input URL, raising
`AttributeError` when the regex does not match. -/
def pyModelId (midJ : JVal) (url : String) : Except String String :=
  if midJ.truthy then .ok (pyStrOf midJ)
  else
    match extractModelId url.data with
    | some d => .ok d
    | none => .error "AttributeError: group of no match"

/-- Lines 766-790 of `fetch_from_api`, in source order.  `v.get` on a
non-dict raises at the first use (line 767). -/
def extractFields (url : String) (v : JVal) : Except String PreFields :=
  match v with
  | .obj kvs => do
    let model_info := jvD kvs "model" (.obj [])
    let file_info ← pyIndex0 (pyOr (jvD kvs "files" .null) (.arr [.obj []]))
    let _img0 ← pyIndex0 (pyOr (jvD kvs "images" .null) (.arr [.obj []]))
    let mname ← jget model_info "name" (.str "")
    let title := pyStripChars (pyStrOf mname ++ " - " ++ pyStrOf (jvD kvs "name" (.str ""))) [' ', '-']
    let model_type ← jget model_info "type" (.str "")
    let base_model := jvD kvs "baseModel" (.str "")
    let base_model_type := jvD kvs "baseModelType" (.str "")
    let trained_words ← pyJoinComma (jvD kvs "trainedWords" (.arr []))
    let sizeKB ← jget file_info "sizeKB" (.num ⟨0, 1⟩)
    let size ← pySizeOf sizeKB
    let hashes ← jget file_info "hashes" (.obj [])
    let dl0 ← jget file_info "downloadUrl" .null
    let download_link := if dl0.truthy then dl0 else JVal.str url
    let description := jvD kvs "description" (.str "")
    let created ← pySplitT (jvD kvs "createdAt" (.str ""))
    let midJ ← jget model_info "id" .null
    let model_id ← pyModelId midJ url
    Except.ok
      { title, model_type, base_model, base_model_type, trained_words, size,
        hashes, download_link, description, created,
        model_link := "https://civitai.com/models/" ++ model_id,
        images := jvD kvs "images" .null }
  | _ => .error "AttributeError: v.get on non-dict"

/-! ### `fetch_from_api` and the batch orchestrator `main` -/

/-- `gen_id_from` (lines 97-103): the global counter made explicit.
Returns `f"A<counter:04d>"` for the incremented counter. -/
def gen_id_from (counter : Nat) : String × Nat :=
  let n := counter + 1
  let s := toString n
  ("A" ++ (if s.length < 4 then String.mk (List.replicate (4 - s.length) '0') ++ s else s), n)

/-- How the network behaves for one entry's API phase (lines 722-764):
either the version JSON could not be resolved (no version id found, or
the version fetch never returned a 200 — both raise before the counter is
touched), or a version JSON `v` was obtained together with the behavior
`dl` of the per-image thumbnail requests. -/
inductive NetOutcome where
  | fail : NetOutcome
  | version : JVal → (Nat → DlResp) → NetOutcome

/-- `fetch_from_api(filename, url)` (lines 716-838) with explicit counter
state and effect trace.  Order of failure points follows the source: the
model-id check and all of lines 766-790 precede the `gen_id_from` call of
line 793; the thumbnail loop and the `model_type.lower()` in the returned
dict (line 822) follow it. -/
def fetch_from_api (filename url : String) (net : NetOutcome) (c : Nat) :
    (Except String ModelRecord × Nat) × List Effect :=
  match extractModelId url.data with
  | none => ((.error "ValueError: No model ID found in URL", c), [])
  | some _ =>
    match net with
    | .fail => ((.error "RuntimeError: could not resolve version", c), [])
    | .version v dl =>
      if v.truthy then
        match extractFields url v with
        | .error e => ((.error e, c), [])
        | .ok pf =>
          match processThumbs dl (gen_id_from c).1 pf.images with
          | (.error e, effs) => ((.error e, (gen_id_from c).2), effs)
          | (.ok (remotes, locals), effs) =>
            match pyLower pf.model_type with
            | .error e => ((.error e, (gen_id_from c).2), effs)
            | .ok ty =>
              ((.ok { filename := filename, title := pf.title, type := ty,
                      base_model := pf.base_model,
                      base_model_type := pf.base_model_type,
                      size := pf.size,
                      thumbnail := remotes.headD "",
                      thumbnail_local := locals.headD "",
                      thumbnails_all := remotes,
                      thumbnails_local := locals,
                      model_link := pf.model_link,
                      metadata := { trained_words := pf.trained_words,
                                    hashes := pf.hashes,
                                    description := pf.description,
                                    download_link := pf.download_link,
                                    published_on := pf.created } }, (gen_id_from c).2), effs)
      else ((.error "RuntimeError: Failed to fetch version", c), [])

/-- The loop state of `main` (lines 861-863): the registry dict `out`,
the success and failure counters, plus the global id counter and the
accumulated side effects. -/
structure MainState where
  out : List (String × ModelRecord)
  succ : Nat
  failures : Nat
  counter : Nat
  effects : List Effect

/-- Initial loop state. -/
def initState : MainState := ⟨[], 0, 0, 0, []⟩

/-- One iteration of the loop of lines 867-884: on exception increment the
failure counter and continue; on success allocate a fresh id with
`gen_id_from`, store the record under it, increment the success
counter. -/
def stepEntry (net : NetOutcome) (s : MainState) (filename url : String) : MainState :=
  match (fetch_from_api filename url net s.counter).1.1 with
  | .error _ =>
    { s with failures := s.failures + 1,
             counter := (fetch_from_api filename url net s.counter).1.2,
             effects := s.effects ++ (fetch_from_api filename url net s.counter).2 }
  | .ok rec =>
    { s with out := s.out ++
               [((gen_id_from (fetch_from_api filename url net s.counter).1.2).1, rec)],
             succ := s.succ + 1,
             counter := (gen_id_from (fetch_from_api filename url net s.counter).1.2).2,
             effects := s.effects ++ (fetch_from_api filename url net s.counter).2 }

/-- The loop of `main` over `links_list`, entry `i` seeing network
behavior `net i`. -/
def mainLoopAux (net : Nat → NetOutcome) :
    Nat → MainState → List (String × String) → MainState
  | _, s, [] => s
  | i, s, (fn, url) :: rest => mainLoopAux net (i + 1) (stepEntry (net i) s fn url) rest

/-- The processing loop of `main` (lines 861-884) from the initial state. -/
def mainLoop (links : List (String × String)) (net : Nat → NetOutcome) : MainState :=
  mainLoopAux net 0 initState links

/-- `main` on an already-parsed links mapping (with `TEST_LIMIT = 0`, i.e.
disabled): load the links, run the loop, serialize, print the summary. -/
def mainRun (data : List (String × LVal)) (net : Nat → NetOutcome) : MainState :=
  mainLoop (load_links data) net

/-- The Python return value of `main()` (lines 843-898): the function body
ends after printing the summary — there is no `return` carrying the
counts, so the caller always receives `None`. -/
def main_result (data : List (String × LVal)) (net : Nat → NetOutcome) : Unit :=
  let _ := mainRun data net
  ()

/-! ### Spec-side companions

Recomputations of thumbnail bookkeeping in the words of the spec, used to
characterize (or refute) what the code produces. -/

/-- The URL under which an image element is actually attempted: a truthy
string `url` field of a dict element.  Falsy urls are skipped by the loop
guard; truthy non-strings make `urlparse` raise before the request and
are skipped by the `except`; non-dict elements abort the record. -/
def urlOfImg : JVal → Option String
  | .obj ikvs =>
    match jvD ikvs "url" .null with
    | .str u => if u ≠ "" then some u else none
    | _ => none
  | _ => none

/-- All attempted remote URLs of an image list (first five images). -/
def specAttempted (imgs : List JVal) : List String :=
  (imgs.take 5).filterMap urlOfImg

/-- Local paths of the successful downloads among images `j, j+1, ...`. -/
def specLocalsFrom (dl : Nat → DlResp) (out_id : String) :
    Nat → List JVal → List String
  | _, [] => []
  | j, img :: rest =>
    (match urlOfImg img with
     | some u =>
       match dl j with
       | .resp s ct =>
         if s = 200 then
           [THUMB_DIR ++ "\\" ++ (out_id ++ "_T" ++ toString j) ++ chooseExt (pyExtOf u) ct]
         else []
       | .raises => []
     | none => []) ++ specLocalsFrom dl out_id (j + 1) rest

/-- All successful local paths of an image list (first five images). -/
def specSuccessLocals (dl : Nat → DlResp) (out_id : String) (imgs : List JVal) : List String :=
  specLocalsFrom dl out_id 1 (imgs.take 5)

/-- Remote URLs of the successful downloads, in order — the spec's "first
successfully downloaded asset" is the head of this list. -/
def specSuccessRemotesFrom (dl : Nat → DlResp) : Nat → List JVal → List String
  | _, [] => []
  | j, img :: rest =>
    (match urlOfImg img with
     | some u =>
       match dl j with
       | .resp s _ => if s = 200 then [u] else []
       | .raises => []
     | none => []) ++ specSuccessRemotesFrom dl (j + 1) rest

/-- Successful remote URLs of an image list (first five images). -/
def specSuccessRemotes (dl : Nat → DlResp) (imgs : List JVal) : List String :=
  specSuccessRemotesFrom dl 1 (imgs.take 5)

/-! ### Concrete sample data used by witnesses and counterexamples -/

/-- A minimal version JSON: a name and one downloadable image. -/
def vMin : JVal :=
  .obj [("name", .str "V1"),
        ("images", .arr [.obj [("url", .str "https://img.example/a.png")]])]

/-- Every thumbnail request answers 200 with an image content type. -/
def dlOK : Nat → DlResp := fun _ => .resp 200 "image/png"

/-- The local path the downloader produces for `vMin`'s single image when
the id counter allocates `A0001` for the record's thumbnails. -/
def pathMin : String := THUMB_DIR ++ "\\A0001_T1.png"

/-- The record `fetch_from_api` produces for `vMin` at counter 0. -/
def recMin : ModelRecord :=
  { filename := "m", title := "V1", type := "",
    base_model := .str "", base_model_type := .str "",
    size := "",
    thumbnail := "https://img.example/a.png",
    thumbnail_local := pathMin,
    thumbnails_all := ["https://img.example/a.png"],
    thumbnails_local := [pathMin],
    model_link := "https://civitai.com/models/123",
    metadata := { trained_words := "", hashes := .obj [],
                  description := .str "",
                  download_link := .str "https://civitai.com/models/123",
                  published_on := "" } }

/-- Effect trace of resolving `vMin`. -/
def effsMin : List Effect :=
  [.ensureDir THUMB_DIR, .httpGet "https://img.example/a.png", .writeFile pathMin]

/-- A version JSON that omits every optional upstream field (only an
unrelated key, so that the `if not v` guard passes). -/
def vBare : JVal := .obj [("id", .num ⟨7, 1⟩)]

/-- The record `fetch_from_api` produces for `vBare` at counter 0: every
upstream-derived field at its empty default. -/
def recBare : ModelRecord :=
  { filename := "w", title := "", type := "",
    base_model := .str "", base_model_type := .str "",
    size := "",
    thumbnail := "", thumbnail_local := "",
    thumbnails_all := [], thumbnails_local := [],
    model_link := "https://civitai.com/models/42",
    metadata := { trained_words := "", hashes := .obj [],
                  description := .str "",
                  download_link := .str "https://civitai.com/models/42",
                  published_on := "" } }

/-- Two images: the first download fails with HTTP 500, the second
succeeds. -/
def imgsC4 : List JVal :=
  [.obj [("url", .str "https://h/a.png")], .obj [("url", .str "https://h/b.png")]]

/-- Thumbnail responses for `imgsC4`: image 1 gets a 500, image 2 a 200. -/
def dlC4 : Nat → DlResp := fun j => if j = 1 then .resp 500 "" else .resp 200 "image/png"

/-- A version JSON whose image list is `imgsC4`. -/
def vC4 : JVal := .obj [("name", .str "X"), ("images", .arr imgsC4)]

/-- The record `fetch_from_api` produces for `vC4` at counter 0. -/
def recC4 : ModelRecord :=
  { filename := "m4", title := "X", type := "",
    base_model := .str "", base_model_type := .str "",
    size := "",
    thumbnail := "https://h/a.png",
    thumbnail_local := THUMB_DIR ++ "\\A0001_T2.png",
    thumbnails_all := ["https://h/a.png", "https://h/b.png"],
    thumbnails_local := [THUMB_DIR ++ "\\A0001_T2.png"],
    model_link := "https://civitai.com/models/99",
    metadata := { trained_words := "", hashes := .obj [],
                  description := .str "",
                  download_link := .str "https://civitai.com/models/99",
                  published_on := "" } }

/-- Effect trace of resolving `vC4`: both images are attempted, only the
second is written. -/
def effsC4 : List Effect :=
  [.ensureDir THUMB_DIR, .httpGet "https://h/a.png",
   .ensureDir THUMB_DIR, .httpGet "https://h/b.png",
   .writeFile (THUMB_DIR ++ "\\A0001_T2.png")]

/-- Attempt sequence for the fetch layer: a network exception first, then
two timeouts — the last observed error is a timeout, the last recorded
exception is not. -/
def attemptsC5 : Nat → Attempt :=
  fun i => [Attempt.netError "boom", .timeout, .timeout].getD i .timeout

/-! ## Helper lemmas -/

theorem exbind_ok {α β : Type} {e : Except String α} {f : α → Except String β} {b : β} :
    e >>= f = .ok b ↔ ∃ a, e = .ok a ∧ f a = .ok b := by
  cases e <;> simp [Bind.bind, Except.bind]

theorem str_append_ne_empty (s t : String) (h : s.data ≠ []) : s ++ t ≠ "" := by
  intro he
  apply h
  have hd : (s ++ t).data = [] := by rw [he]
  have : s.data ++ t.data = [] := hd
  exact (List.append_eq_nil.mp this).1

/-- Inversion of a successful `fetch_from_api`: the exact shape of the
returned record in terms of the extracted fields and the thumbnail
phase. -/
theorem fetch_ok_inv {fn url : String} {v : JVal} {dl : Nat → DlResp} {c c' : Nat}
    {rec : ModelRecord} {effs : List Effect}
    (h : fetch_from_api fn url (.version v dl) c = ((.ok rec, c'), effs)) :
    ∃ pf remotes locals ty,
      extractFields url v = .ok pf ∧
      processThumbs dl (gen_id_from c).1 pf.images = (.ok (remotes, locals), effs) ∧
      pyLower pf.model_type = .ok ty ∧ c' = (gen_id_from c).2 ∧
      rec = { filename := fn, title := pf.title, type := ty,
              base_model := pf.base_model, base_model_type := pf.base_model_type,
              size := pf.size,
              thumbnail := remotes.headD "", thumbnail_local := locals.headD "",
              thumbnails_all := remotes, thumbnails_local := locals,
              model_link := pf.model_link,
              metadata := ⟨pf.trained_words, pf.hashes, pf.description,
                           pf.download_link, pf.created⟩ } := by
  unfold fetch_from_api at h
  split at h
  · simp at h
  · split at h
    · rename_i heq
      exact absurd heq (by simp)
    · rename_i v' dl' heq
      injection heq with hv hdl
      subst hv; subst hdl
      split at h
      · split at h
        · simp at h
        · rename_i pf hef
          split at h
          · simp at h
          · rename_i remotes locals effs2 hp
            split at h
            · simp at h
            · rename_i ty hl
              simp only [Prod.mk.injEq, Except.ok.injEq] at h
              obtain ⟨⟨hrec, hc⟩, heff⟩ := h
              refine ⟨pf, remotes, locals, ty, hef, ?_, hl, hc.symm, hrec.symm⟩
              rw [hp, heff]
      · simp at h

/-! ## Claim theorems -/

/-- Claim C9 counterexample: the claim as stated is false of the code on
one field — when the upstream JSON omits `files` (hence `downloadUrl`),
line 784 (`download_link = file_info.get("downloadUrl") or url`) falls
back to the *input page URL*, so the record's `metadata.download_link`
is a non-empty string, not an empty string or empty collection.  At the
concrete input `vBare` (which omits every optional key) the successful
resolution yields `recBare` whose `download_link` is the URL. -/
theorem download_link_fallback_counterexample :
    fetch_from_api "w" "https://civitai.com/models/42" (.version vBare dlOK) 0
      = ((.ok recBare, 1), []) ∧
    jlookup "files" [("id", JVal.num ⟨7, 1⟩)] = none ∧
    recBare.metadata.download_link = JVal.str "https://civitai.com/models/42" ∧
    recBare.metadata.download_link ≠ JVal.str "" ∧
    recBare.metadata.download_link ≠ JVal.arr [] ∧
    recBare.metadata.download_link ≠ JVal.obj [] := by
  refine ⟨rfl, rfl, rfl, ?_, ?_, ?_⟩
  · intro h
    injection h with h'
    exact absurd h' (by decide)
  · intro h
    exact JVal.noConfusion h
  · intro h
    exact JVal.noConfusion h

/-- Claim C9 (amended): every `ModelRecord` returned by a successful
resolution contains every schema field (immediate from the `ModelRecord`
structure, which mirrors the literal dict of lines 819-838 — no branch
omits a key), and each field the upstream version JSON omits is present
as an empty string or empty collection, never absent and never null —
with the one exception of `metadata.download_link`, which falls back to
the input page URL (line 784) when upstream provides no download URL. -/
theorem record_omitted_fields_empty
    (fn url : String) (kvs : List (String × JVal)) (dl : Nat → DlResp)
    (c c' : Nat) (rec : ModelRecord) (effs : List Effect)
    (h : fetch_from_api fn url (.version (.obj kvs) dl) c = ((.ok rec, c'), effs)) :
    rec.filename = fn ∧
    (jlookup "model" kvs = none → rec.type = "" ∧
        (jlookup "name" kvs = none → rec.title = "")) ∧
    (jlookup "baseModel" kvs = none → rec.base_model = .str "") ∧
    (jlookup "baseModelType" kvs = none → rec.base_model_type = .str "") ∧
    (jlookup "files" kvs = none →
        rec.size = "" ∧ rec.metadata.hashes = .obj [] ∧
        rec.metadata.download_link = .str url) ∧
    (jlookup "trainedWords" kvs = none → rec.metadata.trained_words = "") ∧
    (jlookup "description" kvs = none → rec.metadata.description = .str "") ∧
    (jlookup "createdAt" kvs = none → rec.metadata.published_on = "") ∧
    (jlookup "images" kvs = none →
        rec.thumbnails_all = [] ∧ rec.thumbnails_local = [] ∧
        rec.thumbnail = "" ∧ rec.thumbnail_local = "") := by
  obtain ⟨pf, remotes, locals, ty, hef, hp, hl, hc, hrec⟩ := fetch_ok_inv h
  simp only [extractFields, exbind_ok] at hef
  obtain ⟨fi, hfi, ii, hii, mn, hmn, mt, hmt, tw, htw, skb, hskb, sz, hsz,
          hs, hhs, d0, hd0, cr, hcr, mj, hmj, mid, hmid, hfin⟩ := hef
  simp only [Except.ok.injEq] at hfin
  subst hfin
  subst hrec
  refine ⟨rfl, ?_, ?_, ?_, ?_, ?_, ?_, ?_, ?_⟩
  · -- "model" omitted: type is "", and with "name" also omitted the title is ""
    intro habs
    have hmi : jvD kvs "model" (.obj []) = .obj [] := by simp [jvD, habs]
    rw [hmi] at hmt hmn
    simp only [jget, jvD, jlookup, Option.getD_none, Except.ok.injEq] at hmt hmn
    subst hmt
    subst hmn
    simp only [pyLower, Except.ok.injEq] at hl
    subst hl
    refine ⟨rfl, ?_⟩
    intro hnm
    have hnn : jvD kvs "name" (.str "") = .str "" := by simp [jvD, hnm]
    simp only [hnn]
    rfl
  · -- "baseModel" omitted
    intro habs
    simp [jvD, habs]
  · -- "baseModelType" omitted
    intro habs
    simp [jvD, habs]
  · -- "files" omitted: size "", hashes {}, download link falls back to the url
    intro habs
    have hff : jvD kvs "files" .null = .null := by simp [jvD, habs]
    rw [hff] at hfi
    simp only [pyOr, JVal.truthy, Bool.false_eq_true, if_false, pyIndex0,
      Except.ok.injEq] at hfi
    subst hfi
    simp only [jget, jvD, jlookup, Option.getD_none, Except.ok.injEq] at hskb hhs hd0
    subst hskb; subst hhs; subst hd0
    simp only [pySizeOf, Except.ok.injEq] at hsz
    subst hsz
    refine ⟨rfl, rfl, ?_⟩
    simp [JVal.truthy]
  · -- "trainedWords" omitted
    intro habs
    have h1 : jvD kvs "trainedWords" (.arr []) = .arr [] := by simp [jvD, habs]
    rw [h1] at htw
    simp only [pyJoinComma, allStrs, Except.ok.injEq] at htw
    subst htw
    rfl
  · -- "description" omitted
    intro habs
    simp [jvD, habs]
  · -- "createdAt" omitted
    intro habs
    have h1 : jvD kvs "createdAt" (.str "") = .str "" := by simp [jvD, habs]
    rw [h1] at hcr
    simp only [pySplitT, Except.ok.injEq] at hcr
    subst hcr
    rfl
  · -- "images" omitted: no thumbnails at all
    intro habs
    have hni : jvD kvs "images" .null = .null := by simp [jvD, habs]
    rw [hni] at hp
    simp only [processThumbs, pyOr, JVal.truthy, Bool.false_eq_true, if_false,
      List.take_nil, thumbLoop, Prod.mk.injEq, Except.ok.injEq] at hp
    obtain ⟨⟨hr, hlo⟩, -⟩ := hp
    subst hr; subst hlo
    exact ⟨rfl, rfl, rfl, rfl⟩

/-- Claim C9 witness: the theorem applied to a concrete version JSON that
omits every optional field, with every hypothesis discharged on the spot —
including the `files`-omitted conjunct showing `download_link` is the
input URL rather than an empty value. -/
theorem record_omitted_fields_empty_witness :
    recBare.type = "" ∧ recBare.title = "" ∧ recBare.base_model = JVal.str "" ∧
    recBare.size = "" ∧
    recBare.metadata.download_link = JVal.str "https://civitai.com/models/42" ∧
    recBare.metadata.trained_words = "" ∧
    recBare.thumbnails_all = ([] : List String) ∧ recBare.thumbnail = "" := by
  have h := record_omitted_fields_empty "w" "https://civitai.com/models/42"
    [("id", JVal.num ⟨7, 1⟩)] dlOK 0 1 recBare [] rfl
  exact ⟨(h.2.1 rfl).1, (h.2.1 rfl).2 rfl, h.2.2.1 rfl, (h.2.2.2.2.1 rfl).1,
         (h.2.2.2.2.1 rfl).2.2,
         h.2.2.2.2.2.1 rfl, (h.2.2.2.2.2.2.2.2 rfl).1, (h.2.2.2.2.2.2.2.2 rfl).2.2.1⟩

/-- Claim C2 counterexample: the code renders `sizeKB = 2048` as the
Python float string `"2.0 MB"` (`round` returns a float and the f-string
keeps its `.0`), not `"2 MB"` as claimed. -/
theorem size_2048_counterexample :
    sizeOfKB ⟨2048, 1⟩ = "2.0 MB" ∧ sizeOfKB ⟨2048, 1⟩ ≠ "2 MB" :=
  ⟨rfl, by decide⟩

/-- Claim C2 (amended): the size normalization picks the largest unit
keeping the value at least 1, but MB/GB values are rendered as Python
floats — `2048` KB gives `"2.0 MB"`, `3145728` KB gives `"3.0 GB"`, and
`500` KB gives `"500 KB"`. -/
theorem size_strings_resolved :
    sizeOfKB ⟨2048, 1⟩ = "2.0 MB" ∧ sizeOfKB ⟨3145728, 1⟩ = "3.0 GB" ∧
    sizeOfKB ⟨500, 1⟩ = "500 KB" :=
  ⟨rfl, rfl, rfl⟩

/-- Claim C10: an empty thumbnail URL returns `("", "")` immediately —
no directory creation, no request, no file write, for every possible
network behavior. -/
theorem download_empty_url_noop (r : DlResp) (out_id : String) :
    download_thumbnail r "" out_id = (("", ""), []) := rfl

/-- Claim C7 counterexample: two runs with different failure counts have
identical `main` return values — the counts are printed, not returned, so
the caller cannot observe them. -/
theorem main_counts_not_returned :
    main_result [("m", .s "https://civitai.com/models/1")] (fun _ => .fail)
      = main_result [] (fun _ => .fail) ∧
    (mainRun [("m", .s "https://civitai.com/models/1")] (fun _ => .fail)).failures = 1 ∧
    (mainRun [] (fun _ => .fail)).failures = 0 :=
  ⟨rfl, rfl, rfl⟩

/-- Claim C7 (amended): the summary counts live only in the loop state
(and the console); `main` returns `None`, identical across all runs. -/
theorem main_result_constant (d₁ d₂ : List (String × LVal)) (n₁ n₂ : Nat → NetOutcome) :
    main_result d₁ n₁ = main_result d₂ n₂ := rfl

/-- Claim C3: resolving one entry calls `gen_id_from` twice — once inside
`fetch_from_api` (line 793, naming the thumbnails `A0001_T<n>`) and once
in `main` (line 878, keying the registry `A0002`) — so the file written
on disk is named after a different identifier than the one under which
the record (and its own `thumbnails_local` paths) are keyed. -/
theorem thumbnail_id_offset_from_registry_key :
    (mainLoop [("m", "https://civitai.com/models/123")]
        (fun _ => .version vMin dlOK)).out.map Prod.fst = ["A0002"] ∧
    (mainLoop [("m", "https://civitai.com/models/123")]
        (fun _ => .version vMin dlOK)).effects
      = [.ensureDir THUMB_DIR, .httpGet "https://img.example/a.png",
         .writeFile (THUMB_DIR ++ "\\A0001_T1.png")] ∧
    ((mainLoop [("m", "https://civitai.com/models/123")]
        (fun _ => .version vMin dlOK)).out.map fun p => p.2.thumbnails_local)
      = [[THUMB_DIR ++ "\\A0001_T1.png"]] ∧
    ("A0001" : String) ≠ "A0002" :=
  ⟨rfl, rfl, rfl, by decide⟩

/-- Claim C5 counterexample: with attempt outcomes
(network exception "boom", timeout, timeout) — all attempts failing — the
last observed error is the final timeout, but `get` raises the earlier
recorded exception "boom": timeouts and HTTP failures are never stored in
`last_exc`. -/
theorem get_not_last_observed_error :
    get attemptsC5 = .error (.exc "boom") ∧
    attemptErr (attemptsC5 2) = .timeoutErr ∧
    GetErr.exc "boom" ≠ attemptErr (attemptsC5 2) :=
  ⟨rfl, rfl, by decide⟩

/-- Claim C8 counterexample: for a URL extension `.foo` with content type
`application/octet-stream`, the code keeps `.foo` (the generic `.dat`
fallback only fires when the URL has no extension at all), while the
claimed rule would sniff and fall back to the generic extension. -/
theorem extension_rule_counterexample :
    chooseExt ".foo" "application/octet-stream" = ".foo" ∧
    specChooseExt ".foo" "application/octet-stream" = ".dat" ∧
    chooseExt ".foo" "application/octet-stream"
      ≠ specChooseExt ".foo" "application/octet-stream" :=
  ⟨rfl, rfl, by decide⟩

/-- A failing resolution only bumps the failure counter (and keeps the
fetch's counter/effects). -/
theorem stepEntry_error {net : NetOutcome} {s : MainState} {fn url m : String}
    (h : (fetch_from_api fn url net s.counter).1.1 = .error m) :
    stepEntry net s fn url =
      { s with failures := s.failures + 1,
               counter := (fetch_from_api fn url net s.counter).1.2,
               effects := s.effects ++ (fetch_from_api fn url net s.counter).2 } := by
  unfold stepEntry
  split
  · rfl
  · rename_i rec heq
    rw [h] at heq
    exact Except.noConfusion heq

/-- A successful resolution appends the record under a freshly allocated
identifier and bumps the success counter. -/
theorem stepEntry_ok {net : NetOutcome} {s : MainState} {fn url : String}
    {rec : ModelRecord}
    (h : (fetch_from_api fn url net s.counter).1.1 = .ok rec) :
    stepEntry net s fn url =
      { s with out := s.out ++
                 [((gen_id_from (fetch_from_api fn url net s.counter).1.2).1, rec)],
               succ := s.succ + 1,
               counter := (gen_id_from (fetch_from_api fn url net s.counter).1.2).2,
               effects := s.effects ++ (fetch_from_api fn url net s.counter).2 } := by
  unfold stepEntry
  split
  · rename_i e heq
    rw [h] at heq
    exact Except.noConfusion heq
  · rename_i rec' heq
    rw [h] at heq
    injection heq with hrr
    subst hrr
    rfl

/-- Claim C1: in a two-entry batch whose first entry's resolution raises
and whose second entry resolves successfully, the loop finishes with
exactly one record in the registry (that of the successful entry), a
failure count of 1 and a success count of 1 — the failure does not abort
later entries. -/
theorem batch_single_failure (fn₁ url₁ fn₂ url₂ : String) (net : Nat → NetOutcome)
    (m : String) (rec : ModelRecord) (c₂ : Nat) (e₂ : List Effect)
    (h₁ : (fetch_from_api fn₁ url₁ (net 0) 0).1.1 = .error m)
    (h₂ : fetch_from_api fn₂ url₂ (net 1) (fetch_from_api fn₁ url₁ (net 0) 0).1.2
          = ((.ok rec, c₂), e₂)) :
    (mainLoop [(fn₁, url₁), (fn₂, url₂)] net).out = [((gen_id_from c₂).1, rec)] ∧
    (mainLoop [(fn₁, url₁), (fn₂, url₂)] net).failures = 1 ∧
    (mainLoop [(fn₁, url₁), (fn₂, url₂)] net).succ = 1 := by
  have hok : (fetch_from_api fn₂ url₂ (net 1)
      (fetch_from_api fn₁ url₁ (net 0) 0).1.2).1.1 = .ok rec := by rw [h₂]
  have hc2 : (fetch_from_api fn₂ url₂ (net 1)
      (fetch_from_api fn₁ url₁ (net 0) 0).1.2).1.2 = c₂ := by rw [h₂]
  have hm : mainLoop [(fn₁, url₁), (fn₂, url₂)] net
      = stepEntry (net 1) (stepEntry (net 0) initState fn₁ url₁) fn₂ url₂ := rfl
  rw [hm, @stepEntry_error (net 0) initState fn₁ url₁ m h₁]
  simp only [initState, List.nil_append]
  rw [stepEntry_ok hok]
  simp [hc2]

/-- Claim C1 witness: a batch of a URL with no model id (resolution
raises `ValueError`) followed by a resolvable model. -/
theorem batch_single_failure_witness :
    (mainLoop [("bad", "nourl"), ("m2", "https://civitai.com/models/123")]
        (fun _ => .version vMin dlOK)).out
      = [("A0002", { recMin with filename := "m2" })] ∧
    (mainLoop [("bad", "nourl"), ("m2", "https://civitai.com/models/123")]
        (fun _ => .version vMin dlOK)).failures = 1 ∧
    (mainLoop [("bad", "nourl"), ("m2", "https://civitai.com/models/123")]
        (fun _ => .version vMin dlOK)).succ = 1 := by
  have h := batch_single_failure "bad" "nourl" "m2" "https://civitai.com/models/123"
    (fun _ => .version vMin dlOK) "ValueError: No model ID found in URL"
    { recMin with filename := "m2" } 1 effsMin rfl rfl
  exact ⟨h.1, h.2.1, h.2.2⟩

/-- Claim C5 (amended): when all three attempts fail, `get` raises the
most recently *recorded* error — the last network-level exception among
the attempts, if any occurred; otherwise (all failures being non-200
statuses or timeouts, which are logged but never stored in `last_exc`) a
generic `RuntimeError`. -/
theorem get_raises_last_recorded_exception (outcomes : Nat → Attempt)
    (h : ∀ i < RETRIES, outcomes i ≠ .ok) :
    get outcomes = .error
      (match lastNetError outcomes RETRIES with
       | some m => .exc m
       | none => .runtimeError "Failed to GET") := by
  have h0 := h 0 (by decide)
  have h1 := h 1 (by decide)
  have h2 := h 2 (by decide)
  cases o0 : outcomes 0 <;> cases o1 : outcomes 1 <;> cases o2 : outcomes 2 <;>
    simp_all [get, getLoop, RETRIES, lastNetError]

/-- Claim C5 witness: three timeouts — no recorded exception, so the
generic `RuntimeError` is raised. -/
theorem get_raises_last_recorded_exception_witness :
    get (fun _ => .timeout) = .error (.runtimeError "Failed to GET") :=
  get_raises_last_recorded_exception (fun _ => .timeout)
    (fun _ _ hc => Attempt.noConfusion hc)

/-- Claim C8 (amended): the saved extension keeps the URL extension when
the content type is an image and the extension is a known image one, when
the content type is a video and the extension is a known video one, or
when the content type is neither and the URL extension is non-empty;
otherwise an image content type gives `.jpg`, a video one `.mp4`, and the
generic `.dat` fallback fires only for neither-typed responses whose URL
has no extension at all. -/
theorem chooseExt_characterization (ext ct : String) :
    (strContains (pyLowerStr ct) "image" = true →
       (ext ∈ [".jpg", ".jpeg", ".png", ".webp"] → chooseExt ext ct = ext) ∧
       (ext ∉ [".jpg", ".jpeg", ".png", ".webp"] → chooseExt ext ct = ".jpg")) ∧
    (strContains (pyLowerStr ct) "image" = false →
       strContains (pyLowerStr ct) "video" = true →
       (ext ∈ [".mp4", ".webm"] → chooseExt ext ct = ext) ∧
       (ext ∉ [".mp4", ".webm"] → chooseExt ext ct = ".mp4")) ∧
    (strContains (pyLowerStr ct) "image" = false →
       strContains (pyLowerStr ct) "video" = false →
       (ext = "" → chooseExt ext ct = ".dat") ∧
       (ext ≠ "" → chooseExt ext ct = ext)) := by
  refine ⟨fun hI => ⟨fun hmem => ?_, fun hmem => ?_⟩,
          fun hI hV => ⟨fun hmem => ?_, fun hmem => ?_⟩,
          fun hI hV => ⟨fun he => ?_, fun he => ?_⟩⟩
  · have hne : ext ≠ "" := by rintro rfl; simp at hmem
    simp [chooseExt, hI, hmem, hne]
  · simp [chooseExt, hI, hmem]
  · have hne : ext ≠ "" := by rintro rfl; simp at hmem
    simp [chooseExt, hI, hV, hmem, hne]
  · simp [chooseExt, hI, hV, hmem]
  · simp [chooseExt, hI, hV, he]
  · simp [chooseExt, hI, hV, he]

/-- Claim C8 witness: a `.png` URL with content type `image/jpeg` keeps
`.png`, by the first clause of the characterization. -/
theorem chooseExt_characterization_witness :
    chooseExt ".png" "image/jpeg" = ".png" :=
  ((chooseExt_characterization ".png" "image/jpeg").1 (by decide)).1 (by decide)

/-- Claim C6 counterexample: the value `"#https://x.com"` is non-empty
and contains the scheme marker `http`, so by the claim it should yield
one entry — but the loader drops the whole value because its only URL
starts with `#`: output length 0, spec-predicted count 1. -/
theorem load_links_count_counterexample :
    specLinkCount [("a", .s "#https://x.com")] = 1 ∧
    load_links [("a", .s "#https://x.com")] = [] ∧
    (load_links [("a", .s "#https://x.com")]).length
      ≠ specLinkCount [("a", .s "#https://x.com")] :=
  ⟨rfl, rfl, by decide⟩

/-- A URL emitted by the loader is a non-empty split part. -/
theorem mem_linkParts_ne (v : LVal) (u : String) (h : u ∈ linkParts v) : u ≠ "" := by
  cases v with
  | s w => simp [linkParts, List.mem_filter] at h; exact h.2
  | lst vs => simp [linkParts, List.mem_filter] at h; exact h.2
  | other b => simp [linkParts] at h

/-- The number of entries one key/value pair contributes: all of its
non-empty parts when the value is kept, none when it is dropped. -/
theorem processLink_length (kv : String × LVal) :
    (processLink kv).length =
      if kv.2.truthy && !(linkParts kv.2).isEmpty && !allDropped (linkParts kv.2) then
        (linkParts kv.2).length
      else 0 := by
  obtain ⟨k, val⟩ := kv
  simp only [processLink]
  cases ht : val.truthy with
  | false => simp [ht]
  | true =>
    simp only [ht, Bool.true_and]
    by_cases hd : ((linkParts val).isEmpty || allDropped (linkParts val)) = true
    · have hcond : (!(linkParts val).isEmpty && !allDropped (linkParts val)) = false := by
        rw [← Bool.not_or, hd]
        rfl
      simp [hd, hcond]
    · have hd' := eq_false_of_ne_true hd
      have hcond : (!(linkParts val).isEmpty && !allDropped (linkParts val)) = true := by
        rw [← Bool.not_or, hd']
        rfl
      by_cases hk : pyStrip k = ""
      · simp [hd', hcond, hk]
      · simp [hd', hcond, hk]

/-- Claim C6 (amended): the Link Loader emits one entry per non-empty URL
value of every *kept* value — a value is kept when it is truthy, has at
least one non-empty part, and at least one part neither starts with `#`
nor lacks the substring `http`; kept values emit all their non-empty
parts; no emitted entry has an empty url; and a value none of whose parts
contains `http` is dropped silently. -/
theorem load_links_amended :
    (∀ data, (load_links data).length =
       (data.map fun kv =>
         if kv.2.truthy && !(linkParts kv.2).isEmpty && !allDropped (linkParts kv.2) then
           (linkParts kv.2).length
         else 0).sum) ∧
    (∀ data (p : String × String), p ∈ load_links data → p.2 ≠ "") ∧
    (∀ kv : String × LVal, (∀ u ∈ linkParts kv.2, strContains u "http" = false) →
       processLink kv = []) := by
  refine ⟨?_, ?_, ?_⟩
  · intro data
    rw [load_links, List.length_flatMap]
    simp only [Function.comp_def, processLink_length]
  · intro data p hp
    simp only [load_links, List.mem_flatMap] at hp
    obtain ⟨kv, -, hpkv⟩ := hp
    obtain ⟨k, val⟩ := kv
    by_cases h1 : val.truthy = true
    · by_cases h2 : ((linkParts val).isEmpty || allDropped (linkParts val)) = true
      · simp [processLink, h1, h2] at hpkv
      · by_cases h3 : pyStrip k = ""
        · simp [processLink, h1, h2, h3] at hpkv
          obtain ⟨u, hu, hup⟩ := hpkv
          rw [← hup]
          exact mem_linkParts_ne val u hu
        · simp [processLink, h1, h2, h3] at hpkv
          obtain ⟨u, hu, hup⟩ := hpkv
          rw [← hup]
          exact mem_linkParts_ne val u hu
    · simp [processLink, h1] at hpkv
  · intro kv hall
    obtain ⟨k, val⟩ := kv
    by_cases h1 : val.truthy = true
    · have hd : allDropped (linkParts val) = true := by
        simp only [allDropped, List.all_eq_true]
        intro u hu
        simp [hall u hu]
      simp [processLink, h1, hd]
    · simp [processLink, h1]

/-- Claim C6 witness: a marker-less value emits nothing (third clause),
and a single plain URL yields exactly one entry (first clause). -/
theorem load_links_amended_witness :
    processLink ("a", .s "foo") = [] ∧
    (load_links [("k", .s "https://x.com")]).length = 1 :=
  ⟨load_links_amended.2.2 ("a", .s "foo") (by decide),
   load_links_amended.1 [("k", .s "https://x.com")]⟩

/-- Claim C4 counterexample: with `imgsC4` (first download answers 500,
second succeeds), the record's primary `thumbnail` is the FAILED first
attempt's remote URL, not the remote URL of the first successfully
downloaded asset (the second image) — while `thumbnail_local` does come
from the second image. -/
theorem thumbnail_primary_counterexample :
    (fetch_from_api "m4" "https://civitai.com/models/99" (.version vC4 dlC4) 0).1.1
      = .ok recC4 ∧
    recC4.thumbnail = "https://h/a.png" ∧
    (specSuccessRemotes dlC4 imgsC4).headD "" = "https://h/b.png" ∧
    recC4.thumbnail ≠ (specSuccessRemotes dlC4 imgsC4).headD "" :=
  ⟨rfl, rfl, rfl, by decide⟩

/-- `download_thumbnail` always returns the remote URL it was given (for a
non-empty URL), whatever the response. -/
theorem download_remote_eq (r : DlResp) (u oid : String) (hu : u ≠ "") :
    (download_thumbnail r u oid).1.1 = u := by
  unfold download_thumbnail
  rw [if_neg hu]
  cases r with
  | raises => rfl
  | resp s ct =>
    by_cases h2 : s ≠ 200
    · simp [h2]
    · simp [h2]

/-- The local path of a response-carrying download: the thumbnail file on
a 200, empty otherwise. -/
theorem download_local_eq (s : Nat) (ct u oid : String) (hu : u ≠ "") :
    (download_thumbnail (.resp s ct) u oid).1.2 =
      if s = 200 then THUMB_DIR ++ "\\" ++ oid ++ chooseExt (pyExtOf u) ct else "" := by
  unfold download_thumbnail
  rw [if_neg hu]
  by_cases h2 : s = 200
  · simp [h2]
  · simp [h2]

/-- The local path of a raising download is empty. -/
theorem download_raises_local (u oid : String) (hu : u ≠ "") :
    (download_thumbnail .raises u oid).1.2 = "" := by
  unfold download_thumbnail
  rw [if_neg hu]

/-- Thumbnail paths are never the empty string. -/
theorem thumbPath_ne_empty (oid t : String) : THUMB_DIR ++ "\\" ++ oid ++ t ≠ "" := by
  apply str_append_ne_empty
  intro h
  have h' : (THUMB_DIR.data ++ "\\".data) ++ oid.data = ([] : List Char) := h
  have h2 := (List.append_eq_nil.mp ((List.append_eq_nil.mp h').1)).1
  exact absurd h2 (by decide)

/-- The thumbnail loop, characterized: on success the remotes are exactly
the attempted URLs and the locals exactly the paths of the 200-responses,
appended to the incoming accumulators. -/
theorem thumbLoop_ok_spec (dl : Nat → DlResp) (out_id : String) :
    ∀ (imgs : List JVal) (j : Nat) (rs ls : List String) (effs effs' : List Effect)
      (A L : List String),
      thumbLoop dl out_id j imgs (rs, ls) effs = (.ok (A, L), effs') →
      A = rs ++ imgs.filterMap urlOfImg ∧
      L = ls ++ specLocalsFrom dl out_id j imgs := by
  intro imgs
  induction imgs with
  | nil =>
    intro j rs ls effs effs' A L h
    simp only [thumbLoop, Prod.mk.injEq, Except.ok.injEq] at h
    obtain ⟨⟨hA, hL⟩, -⟩ := h
    simp [← hA, ← hL, specLocalsFrom]
  | cons img rest ih =>
    intro j rs ls effs effs' A L h
    cases img with
    | null => simp [thumbLoop] at h
    | boolean b => simp [thumbLoop] at h
    | num q => simp [thumbLoop] at h
    | str s => simp [thumbLoop] at h
    | arr l => simp [thumbLoop] at h
    | obj ikvs =>
      simp only [thumbLoop] at h
      cases hu : jvD ikvs "url" .null with
      | str us =>
        rw [hu] at h
        by_cases hus : us = ""
        · simp only [hus, JVal.truthy] at h
          simp only [decide_not] at h
          simp at h
          have hres := ih (j + 1) rs ls effs effs' A L h
          simpa [specLocalsFrom, urlOfImg, hu, hus] using hres
        · simp only [JVal.truthy] at h
          rw [if_pos (by simp [hus])] at h
          have hres := ih _ _ _ _ _ _ _ h
          obtain ⟨hA, hL⟩ := hres
          constructor
          · rw [hA, download_remote_eq (dl j) us (out_id ++ "_T" ++ toString j) hus]
            simp [urlOfImg, hu, hus]
          · rw [hL]
            cases hdl : dl j with
            | raises =>
              rw [download_raises_local us (out_id ++ "_T" ++ toString j) hus]
              simp [specLocalsFrom, urlOfImg, hu, hus, hdl]
            | resp s ct =>
              rw [download_local_eq s ct us (out_id ++ "_T" ++ toString j) hus]
              by_cases hs : s = 200
              · simp [hs, specLocalsFrom, urlOfImg, hu, hus, hdl,
                  thumbPath_ne_empty (out_id ++ "_T" ++ toString j)
                    (chooseExt (pyExtOf us) ct)]
              · simp [hs, specLocalsFrom, urlOfImg, hu, hus, hdl]
      | null =>
        rw [hu] at h
        simp only [JVal.truthy, Bool.false_eq_true, if_false] at h
        have hres := ih _ _ _ _ _ _ _ h
        simpa [specLocalsFrom, urlOfImg, hu] using hres
      | boolean b =>
        rw [hu] at h
        cases b with
        | false =>
          simp only [JVal.truthy, Bool.false_eq_true, if_false] at h
          have hres := ih _ _ _ _ _ _ _ h
          simpa [specLocalsFrom, urlOfImg, hu] using hres
        | true =>
          simp only [JVal.truthy, if_true] at h
          have hres := ih _ _ _ _ _ _ _ h
          simpa [specLocalsFrom, urlOfImg, hu] using hres
      | num q =>
        rw [hu] at h
        by_cases htr : JVal.truthy (.num q) = true
        · simp only [htr, if_true] at h
          have hres := ih _ _ _ _ _ _ _ h
          simpa [specLocalsFrom, urlOfImg, hu] using hres
        · simp only [eq_false_of_ne_true htr, Bool.false_eq_true, if_false] at h
          have hres := ih _ _ _ _ _ _ _ h
          simpa [specLocalsFrom, urlOfImg, hu] using hres
      | arr l =>
        rw [hu] at h
        by_cases htr : JVal.truthy (.arr l) = true
        · simp only [htr, if_true] at h
          have hres := ih _ _ _ _ _ _ _ h
          simpa [specLocalsFrom, urlOfImg, hu] using hres
        · simp only [eq_false_of_ne_true htr, Bool.false_eq_true, if_false] at h
          have hres := ih _ _ _ _ _ _ _ h
          simpa [specLocalsFrom, urlOfImg, hu] using hres
      | obj o =>
        rw [hu] at h
        by_cases htr : JVal.truthy (.obj o) = true
        · simp only [htr, if_true] at h
          have hres := ih _ _ _ _ _ _ _ h
          simpa [specLocalsFrom, urlOfImg, hu] using hres
        · simp only [eq_false_of_ne_true htr, Bool.false_eq_true, if_false] at h
          have hres := ih _ _ _ _ _ _ _ h
          simpa [specLocalsFrom, urlOfImg, hu] using hres

/-- `processThumbs` on an array of images is the loop over the first five,
from empty accumulators. -/
theorem processThumbs_arr (dl : Nat → DlResp) (out_id : String) (imgs : List JVal) :
    processThumbs dl out_id (.arr imgs) = thumbLoop dl out_id 1 (imgs.take 5) ([], []) [] := by
  cases imgs with
  | nil => rfl
  | cons a as => rfl

/-- Claim C4 (amended): the record's primary `thumbnail` is the head of
`thumbnails_all` and `thumbnail_local` the head of `thumbnails_local`;
`thumbnails_all` collects every *attempted* remote URL (kept even when
its download failed), and `thumbnails_local` exactly the local paths of
the successful (HTTP 200) downloads, in order. -/
theorem thumbnail_primary_amended :
    (∀ (fn url : String) (v : JVal) (dl : Nat → DlResp) (c c' : Nat)
       (rec : ModelRecord) (effs : List Effect),
       fetch_from_api fn url (.version v dl) c = ((.ok rec, c'), effs) →
       rec.thumbnail = rec.thumbnails_all.headD "" ∧
       rec.thumbnail_local = rec.thumbnails_local.headD "") ∧
    (∀ (dl : Nat → DlResp) (out_id : String) (imgs : List JVal)
       (A L : List String) (effs : List Effect),
       processThumbs dl out_id (.arr imgs) = (.ok (A, L), effs) →
       A = specAttempted imgs ∧ L = specSuccessLocals dl out_id imgs) := by
  constructor
  · intro fn url v dl c c' rec effs h
    obtain ⟨pf, remotes, locals, ty, -, -, -, -, hrec⟩ := fetch_ok_inv h
    subst hrec
    exact ⟨rfl, rfl⟩
  · intro dl out_id imgs A L effs h
    rw [processThumbs_arr] at h
    have hres := thumbLoop_ok_spec dl out_id (imgs.take 5) 1 [] [] [] effs A L h
    simpa [specAttempted, specSuccessLocals] using hres

/-- Claim C4 witness: the amended claim applied to `imgsC4`/`recC4`. -/
theorem thumbnail_primary_amended_witness :
    recC4.thumbnail = recC4.thumbnails_all.headD "" ∧
    recC4.thumbnails_all = specAttempted imgsC4 ∧
    recC4.thumbnails_local = specSuccessLocals dlC4 "A0001" imgsC4 := by
  have h1 := thumbnail_primary_amended.1 "m4" "https://civitai.com/models/99" vC4 dlC4
    0 1 recC4 effsC4 rfl
  have h2 := thumbnail_primary_amended.2 dlC4 "A0001" imgsC4
    recC4.thumbnails_all recC4.thumbnails_local effsC4 rfl
  exact ⟨h1.1, h2.1, h2.2⟩

end Scrape
